import Mathlib

/-!
Verification of the shader-pipeline demo (GLFW/OpenGL teaching example).

The repository contains three near-duplicate variants of one program:
  * `src/main.cc`        — triangle-fan variant with embedded shader strings
    (namespace `Main` below);
  * `src/unnamed/part_000` — same fan variant, buffer handle passed by
    reference and the buffer created before the clear (namespace `FanRef`);
  * `src/unnamed/part_001` — two-attribute (position + colour) variant whose
    shader sources are loaded from files (namespace `MultiInput`);
  * `src/shader_utils.cc` — the file-loading helper `load_shader_from_file`.

The OpenGL context is modelled as an explicit state record `GLState`; every
GL entry point the program calls becomes a Lean function on that record.
Driver-dependent outcomes (compile status, link status, info logs) are an
environment parameter `Driver`.  Handles returned by `glCreateShader`,
`glCreateProgram` and `glGenBuffers` are modelled as successive values of a
counter, offset by one so that every handle is nonzero, as in OpenGL.
-/

/-! ## GL enumeration constants (values from gl3.h) -/

def GL_TRIANGLES : Nat := 0x0004
def GL_TRIANGLE_FAN : Nat := 0x0006
def GL_FLOAT : Nat := 0x1406
def GL_ARRAY_BUFFER : Nat := 0x8892
def GL_STATIC_DRAW : Nat := 0x88E4
def GL_VERTEX_SHADER : Nat := 0x8B31
def GL_FRAGMENT_SHADER : Nat := 0x8B30
def GL_GEOMETRY_SHADER : Nat := 0x8DD9
def GL_COLOR_BUFFER_BIT : Nat := 0x4000

/-! ## The driver oracle

Whether a compile or a link succeeds, and what diagnostic text the driver
returns, is decided by the GPU driver, not by this program.  We model the
driver as a total environment: compile outcome and log keyed by stage and
source text, link outcome and log keyed by the list of attached shaders. -/

structure Driver where
  compileOk : Nat → String → Bool
  compileLog : Nat → String → String
  linkOk : List Nat → Bool
  linkLog : List Nat → String

/-! ## GL context state -/

structure AttribPtr where
  buffer : Nat
  size : Nat
  compType : Nat
  normalized : Bool
  stride : Nat
  offset : Nat
deriving DecidableEq

structure DrawCall where
  mode : Nat
  first : Int
  count : Int
deriving DecidableEq

structure GLState where
  nextShader : Nat
  nextProgram : Nat
  nextBuffer : Nat
  liveShaders : List Nat
  shaderStage : List (Nat × Nat)
  shaderSrc : List (Nat × String)
  compileStatus : List (Nat × Bool)
  shaderLog : List (Nat × String)
  livePrograms : List Nat
  attachments : List (Nat × Nat)
  linkStatus : List (Nat × Bool)
  programLog : List (Nat × String)
  currentProgram : Nat
  arrayBuffer : Nat
  liveBuffers : List Nat
  bufferStore : List (Nat × (Nat × List Rat))
  enabledAttribs : List Nat
  attribPtrs : List (Nat × AttribPtr)
  clearColor : Rat × Rat × Rat × Rat
  clearCount : Nat
  draws : List DrawCall
  stderrLog : List String
deriving DecidableEq

/-- The GL context as produced by `glfwMakeContextCurrent`: no handles yet,
no program active, nothing bound, no attribute enabled. -/
def glInit : GLState :=
  { nextShader := 0, nextProgram := 0, nextBuffer := 0, liveShaders := [],
    shaderStage := [], shaderSrc := [], compileStatus := [], shaderLog := [],
    livePrograms := [], attachments := [], linkStatus := [], programLog := [],
    currentProgram := 0, arrayBuffer := 0, liveBuffers := [], bufferStore := [],
    enabledAttribs := [], attribPtrs := [], clearColor := (0, 0, 0, 0),
    clearCount := 0, draws := [], stderrLog := [] }

/-- First-match association lookup with a default, used for the
`glGetShaderiv` / `glGetProgramiv` style queries of the model. -/
def lookupD {α : Type} (k : Nat) (l : List (Nat × α)) (dflt : α) : α :=
  match l with
  | [] => dflt
  | (k2, v) :: rest => if k2 = k then v else lookupD k rest dflt

@[simp] theorem lookupD_nil {α : Type} (k : Nat) (d : α) :
    lookupD k ([] : List (Nat × α)) d = d := rfl

@[simp] theorem lookupD_cons_self {α : Type} (k : Nat) (v : α) (l : List (Nat × α)) (d : α) :
    lookupD k ((k, v) :: l) d = v := by
  simp [lookupD]

theorem lookupD_cons_ne {α : Type} {k k2 : Nat} (v : α) (l : List (Nat × α)) (d : α)
    (h : k2 ≠ k) : lookupD k ((k2, v) :: l) d = lookupD k l d := by
  simp [lookupD, h]

/-! ## GL entry points used by the program -/

/-- `cerr << msg << endl` : append one line to the diagnostic stream. -/
def cerrLine (msg : String) (s : GLState) : GLState :=
  { s with stderrLog := s.stderrLog ++ [msg] }

def glCreateShader (shaderType : Nat) (s : GLState) : Nat × GLState :=
  let h := s.nextShader + 1
  (h, { s with nextShader := h, liveShaders := h :: s.liveShaders,
               shaderStage := (h, shaderType) :: s.shaderStage })

def glShaderSource (shader : Nat) (src : String) (s : GLState) : GLState :=
  { s with shaderSrc := (shader, src) :: s.shaderSrc }

def glCompileShader (d : Driver) (shader : Nat) (s : GLState) : GLState :=
  let ty := lookupD shader s.shaderStage 0
  let src := lookupD shader s.shaderSrc ""
  { s with compileStatus := (shader, d.compileOk ty src) :: s.compileStatus,
           shaderLog := (shader, d.compileLog ty src) :: s.shaderLog }

def glDeleteShader (shader : Nat) (s : GLState) : GLState :=
  { s with liveShaders := s.liveShaders.filter (fun h => h ≠ shader) }

def glCreateProgram (s : GLState) : Nat × GLState :=
  let h := s.nextProgram + 1
  (h, { s with nextProgram := h, livePrograms := h :: s.livePrograms })

def glAttachShader (program shader : Nat) (s : GLState) : GLState :=
  { s with attachments := s.attachments ++ [(program, shader)] }

def glDetachShader (program shader : Nat) (s : GLState) : GLState :=
  { s with attachments := s.attachments.filter (fun a => a ≠ (program, shader)) }

def glLinkProgram (d : Driver) (program : Nat) (s : GLState) : GLState :=
  let att := (s.attachments.filter (fun a => a.1 = program)).map Prod.snd
  { s with linkStatus := (program, d.linkOk att) :: s.linkStatus,
           programLog := (program, d.linkLog att) :: s.programLog }

def glUseProgram (program : Nat) (s : GLState) : GLState :=
  { s with currentProgram := program }

def glGenBuffer (s : GLState) : Nat × GLState :=
  let h := s.nextBuffer + 1
  (h, { s with nextBuffer := h, liveBuffers := s.liveBuffers ++ [h] })

def glBindBuffer (target buffer : Nat) (s : GLState) : GLState :=
  if target = GL_ARRAY_BUFFER then { s with arrayBuffer := buffer } else s

def glBufferData (target : Nat) (size : Nat) (data : List Rat) (usage : Nat)
    (s : GLState) : GLState :=
  if target = GL_ARRAY_BUFFER ∧ s.arrayBuffer ≠ 0 then
    { s with bufferStore := (s.arrayBuffer, (size, data)) :: s.bufferStore }
  else s

def glEnableVertexAttribArray (index : Nat) (s : GLState) : GLState :=
  { s with enabledAttribs :=
      if index ∈ s.enabledAttribs then s.enabledAttribs else index :: s.enabledAttribs }

def glDisableVertexAttribArray (index : Nat) (s : GLState) : GLState :=
  { s with enabledAttribs := s.enabledAttribs.filter (fun i => i ≠ index) }

def glVertexAttribPointer (index size compType : Nat) (normalized : Bool)
    (stride offset : Nat) (s : GLState) : GLState :=
  { s with attribPtrs :=
      (index, ⟨s.arrayBuffer, size, compType, normalized, stride, offset⟩) :: s.attribPtrs }

def glClearColor (r g b a : Rat) (s : GLState) : GLState :=
  { s with clearColor := (r, g, b, a) }

def glClear (mask : Nat) (s : GLState) : GLState :=
  { s with clearCount := s.clearCount + 1 }

def glDrawArrays (mode : Nat) (first count : Int) (s : GLState) : GLState :=
  { s with draws := s.draws ++ [⟨mode, first, count⟩] }

/-- `sizeof(GLfloat)` in bytes. -/
def sizeofFloat : Nat := 4

/-! ## Shader compilation and linking (shared verbatim by all variants) -/

/-- The `switch(eShaderType)` of `create_shader`: name of the stage, `none`
for an unhandled enum (the C++ leaves the pointer NULL there). -/
def shaderTypeName (shaderType : Nat) : Option String :=
  if shaderType = GL_VERTEX_SHADER then some "vertex"
  else if shaderType = GL_GEOMETRY_SHADER then some "geometry"
  else if shaderType = GL_FRAGMENT_SHADER then some "fragment"
  else none

/-- `create_shader` (src/main.cc:249, identical in both unnamed variants):
create a shader object, submit the source, compile, and on failure print
"Compile failure in STAGE shader:" followed by the driver log; the handle is
returned in every case. -/
def create_shader (d : Driver) (eShaderType : Nat) (strShaderFile : String)
    (s : GLState) : Nat × GLState :=
  let p := glCreateShader eShaderType s
  let shader := p.1
  let s1 := glShaderSource shader strShaderFile p.2
  let s2 := glCompileShader d shader s1
  let status := lookupD shader s2.compileStatus false
  let msgs : List String :=
    if status = false then
      ["Compile failure in " ++ (shaderTypeName eShaderType).getD "" ++ " shader:\n"
        ++ lookupD shader s2.shaderLog "" ++ "%s"]
    else []
  (shader, { s2 with stderrLog := s2.stderrLog ++ msgs })

/-- `create_shader_program` (src/main.cc:207, identical in both unnamed
variants): create a program, attach every shader of the list, link, print
"Linker failure:" plus the driver log when the link failed, then detach every
shader of the list and return the program handle in every case. -/
def create_shader_program (d : Driver) (shaderList : List Nat)
    (s : GLState) : Nat × GLState :=
  let p := glCreateProgram s
  let program := p.1
  let s1 := shaderList.foldl (fun st sh => glAttachShader program sh st) p.2
  let s2 := glLinkProgram d program s1
  let status := lookupD program s2.linkStatus false
  let msgs : List String :=
    if status = false then
      ["Linker failure: " ++ lookupD program s2.programLog ""]
    else []
  let s3 := { s2 with stderrLog := s2.stderrLog ++ msgs }
  let s4 := shaderList.foldl (fun st sh => glDetachShader program sh st) s3
  (program, s4)

/-! ## src/main.cc : triangle-fan variant with embedded shader strings -/

def VertexShaderString : String :=
  "#version 330\n\nlayout(location = 0) in vec4 position;\nvoid main()\n\x7b\n    gl_Position = position;\n\x7d"

def FragmentShaderString : String :=
  "#version 330\n\nout vec4 outputColor;\nvoid main()\n\x7b\n   outputColor = vec4(0.0f, 0.0f, 1.0f, 1.0f);\n\x7d"

/-- `initialize_main_shaders` (src/main.cc:181): compile the vertex and the
fragment stage, link the pair, then delete both shader objects. -/
def initialize_main_shaders (d : Driver) (s : GLState) : Nat × GLState :=
  let p1 := create_shader d GL_VERTEX_SHADER VertexShaderString s
  let p2 := create_shader d GL_FRAGMENT_SHADER FragmentShaderString p1.2
  let shaderList : List Nat := [p1.1, p2.1]
  let p3 := create_shader_program d shaderList p2.2
  let s4 := shaderList.foldl (fun st sh => glDeleteShader sh st) p3.2
  (p3.1, s4)

/-- The five-vertex fan position data of `initialize_vertex_buffer`
(src/main.cc:301 and part_000:211), one `Rat` per float. -/
def vertexPositions : List Rat :=
  [0, 0.5, 0, 1,
   0, 0, 0, 1,
   0.5, 0, 0, 1,
   0, -0.5, 0, 1,
   -0.5, 0, 0, 1]

/-- `initialize_vertex_buffer` (src/main.cc:298): generate a buffer, bind it
to GL_ARRAY_BUFFER, upload `sizeof(vertexPositions)` bytes, unbind to 0 and
return the buffer handle. -/
def Main.initialize_vertex_buffer (s : GLState) : Nat × GLState :=
  let p := glGenBuffer s
  let bufferObject := p.1
  let s1 := glBindBuffer GL_ARRAY_BUFFER bufferObject p.2
  let s2 := glBufferData GL_ARRAY_BUFFER (sizeofFloat * vertexPositions.length)
              vertexPositions GL_STATIC_DRAW s1
  let s3 := glBindBuffer GL_ARRAY_BUFFER 0 s2
  (bufferObject, s3)

/-- `render_scene` (src/main.cc:129): clear, activate the program, create and
fill a fresh vertex buffer, bind it, enable attribute 0, describe its format,
draw a five-vertex triangle fan, then disable attribute 0 and deactivate the
program.  Note the buffer stays bound: there is no final
`glBindBuffer(GL_ARRAY_BUFFER, 0)`. -/
def Main.render_scene (shaderProgram : Nat) (s : GLState) : GLState :=
  let s1 := glClearColor 0 0 0 0 s
  let s2 := glClear GL_COLOR_BUFFER_BIT s1
  let s3 := glUseProgram shaderProgram s2
  let p := Main.initialize_vertex_buffer s3
  let positionBufferObject := p.1
  let s4 := glBindBuffer GL_ARRAY_BUFFER positionBufferObject p.2
  let s5 := glEnableVertexAttribArray 0 s4
  let s6 := glVertexAttribPointer 0 4 GL_FLOAT false 0 0 s5
  let s7 := glDrawArrays GL_TRIANGLE_FAN 0 5 s6
  let s8 := glDisableVertexAttribArray 0 s7
  glUseProgram 0 s8

/-! ## src/unnamed/part_000 : fan variant, buffer created before the clear -/

/-- `initialize_vertex_buffer` (part_000:209): identical upload of the same
five-vertex fan data; the handle is written through a reference parameter,
modelled as a returned value. -/
def FanRef.initialize_vertex_buffer (s : GLState) : Nat × GLState :=
  let p := glGenBuffer s
  let bufferObject := p.1
  let s1 := glBindBuffer GL_ARRAY_BUFFER bufferObject p.2
  let s2 := glBufferData GL_ARRAY_BUFFER (sizeofFloat * vertexPositions.length)
              vertexPositions GL_STATIC_DRAW s1
  let s3 := glBindBuffer GL_ARRAY_BUFFER 0 s2
  (bufferObject, s3)

/-- `render_scene` (part_000:239): same frame as src/main.cc except the
vertex buffer is created before the clear. -/
def FanRef.render_scene (shaderProgram : Nat) (s : GLState) : GLState :=
  let p := FanRef.initialize_vertex_buffer s
  let positionBufferObject := p.1
  let s1 := glClearColor 0 0 0 0 p.2
  let s2 := glClear GL_COLOR_BUFFER_BIT s1
  let s3 := glUseProgram shaderProgram s2
  let s4 := glBindBuffer GL_ARRAY_BUFFER positionBufferObject s3
  let s5 := glEnableVertexAttribArray 0 s4
  let s6 := glVertexAttribPointer 0 4 GL_FLOAT false 0 0 s5
  let s7 := glDrawArrays GL_TRIANGLE_FAN 0 5 s6
  let s8 := glDisableVertexAttribArray 0 s7
  glUseProgram 0 s8

/-! ## src/unnamed/part_001 : two-attribute (position + colour) variant -/

/-- The vertex data of part_001:297: three position vec4s followed by three
colour vec4s. -/
def vertexDataMulti : List Rat :=
  [0, 0.5, 0, 1,
   0.5, -0.366, 0, 1,
   -0.5, -0.366, 0, 1,
   1, 0, 0, 1,
   0, 1, 0, 1,
   0, 0, 1, 1]

/-- `initialize_vertex_buffer` (part_001:294): upload the position + colour
data, unbind, return the handle. -/
def MultiInput.initialize_vertex_buffer (s : GLState) : Nat × GLState :=
  let p := glGenBuffer s
  let bufferObject := p.1
  let s1 := glBindBuffer GL_ARRAY_BUFFER bufferObject p.2
  let s2 := glBufferData GL_ARRAY_BUFFER (sizeofFloat * vertexDataMulti.length)
              vertexDataMulti GL_STATIC_DRAW s1
  let s3 := glBindBuffer GL_ARRAY_BUFFER 0 s2
  (bufferObject, s3)

/-- `render_scene` (part_001:110): clear, activate the program, create the
buffer, bind it, enable attributes 0 and 1, point attribute 0 at offset 0 and
attribute 1 at byte offset `sizeof(GLfloat) * 4 * 3`, draw three vertices as
GL_TRIANGLES, then disable attribute 0 only and deactivate the program. -/
def MultiInput.render_scene (shaderProgram : Nat) (s : GLState) : GLState :=
  let s1 := glClearColor 0 0 0 0 s
  let s2 := glClear GL_COLOR_BUFFER_BIT s1
  let s3 := glUseProgram shaderProgram s2
  let p := MultiInput.initialize_vertex_buffer s3
  let positionBufferObject := p.1
  let s4 := glBindBuffer GL_ARRAY_BUFFER positionBufferObject p.2
  let s5 := glEnableVertexAttribArray 0 s4
  let s6 := glEnableVertexAttribArray 1 s5
  let s7 := glVertexAttribPointer 0 4 GL_FLOAT false 0 0 s6
  let s8 := glVertexAttribPointer 1 4 GL_FLOAT false 0 (sizeofFloat * 4 * 3) s7
  let s9 := glDrawArrays GL_TRIANGLES 0 3 s8
  let s10 := glDisableVertexAttribArray 0 s9
  glUseProgram 0 s10

/-! ## src/shader_utils.cc and program startup -/

/-- `load_shader_from_file` (src/shader_utils.cc:8).  The filesystem is the
environment `fs`; `fs filename = some text` means the `ifstream` opens and
the file holds `text`.  On success the C++ seeks to the end, resizes the
string to `tellg()` (the byte length), seeks back and reads that many bytes;
on failure it prints "Could not open PATH" and returns "".  The second
component collects the warning lines printed. -/
def load_shader_from_file (fs : String → Option String) (filename : String) :
    String × List String :=
  match fs filename with
  | some file =>
      let size := file.length
      let contents := String.mk (file.data.take size)
      (contents, [])
  | none => ("", ["Could not open " ++ filename])

/-- The startup path of `main` (src/main.cc:79): abort (`none`) when GLFW
fails to initialize or the window cannot be created; otherwise build the
shader program and enter the render loop with it (`some`).  No other
condition aborts startup. -/
def main_startup (d : Driver) (glfwInitOk windowOk : Bool) (s : GLState) :
    Option (Nat × GLState) :=
  if !glfwInitOk then none
  else if !windowOk then none
  else some (initialize_main_shaders d s)

/-- `render_scene` iterated over `n` frames of the main loop
(src/main.cc:110). -/
def frames (n : Nat) (shaderProgram : Nat) (s : GLState) : GLState :=
  match n with
  | 0 => s
  | Nat.succ k => frames k shaderProgram (Main.render_scene shaderProgram s)

/-- A driver on which every compile and every link fails with an empty log. -/
def dFail : Driver :=
  { compileOk := fun _ _ => false, compileLog := fun _ _ => "",
    linkOk := fun _ => false, linkLog := fun _ => "" }

/-- A driver on which every compile and every link succeeds. -/
def dOk : Driver :=
  { compileOk := fun _ _ => true, compileLog := fun _ _ => "",
    linkOk := fun _ => true, linkLog := fun _ => "" }

/-! ## Helper lemmas about the attach / detach loops -/

theorem attach_fold_eq (p : Nat) (l : List Nat) (s : GLState) :
    l.foldl (fun st sh => glAttachShader p sh st) s =
    { s with attachments := s.attachments ++ l.map (fun sh => (p, sh)) } := by
  induction l generalizing s with
  | nil => simp
  | cons a t ih =>
    rw [List.foldl_cons]
    show (t.foldl (fun st sh => glAttachShader p sh st) (glAttachShader p a s)) = _
    rw [ih]
    simp [glAttachShader]

theorem detach_fold_eq (p : Nat) (l : List Nat) (s : GLState) :
    l.foldl (fun st sh => glDetachShader p sh st) s =
    { s with attachments :=
        s.attachments.filter (fun a => decide (¬(a.1 = p ∧ a.2 ∈ l))) } := by
  induction l generalizing s with
  | nil => simp
  | cons a t ih =>
    rw [List.foldl_cons, ih, glDetachShader]
    congr 1
    rw [List.filter_filter]
    refine List.filter_congr ?_
    intro x _
    by_cases h1 : x.1 = p <;> by_cases h2 : x.2 = a <;> by_cases h3 : x.2 ∈ t <;>
      simp [h1, h2, h3, Prod.ext_iff]

/-! ## Claims about the file loader and the vertex-buffer upload -/

/-- C8: for every path handed to `load_shader_from_file`, if the file opens
the call returns its full contents and prints nothing; if it does not open,
the call returns the empty string and prints a warning naming the path.  The
call never fails: it is total and returns on both branches. -/
theorem load_shader_from_file_spec (fs : String → Option String) (filename : String) :
    load_shader_from_file fs filename =
      match fs filename with
      | some contents => (contents, [])
      | none => ("", ["Could not open " ++ filename]) := by
  cases h : fs filename with
  | none => simp [load_shader_from_file, h]
  | some file =>
    simp only [load_shader_from_file, h]
    cases file with
    | mk data => simp [String.length]

/-- C10: `initialize_vertex_buffer` (src/main.cc) always returns with the
array-buffer binding deactivated (0), whatever was bound before the call; it
creates the fresh buffer `s.nextBuffer + 1`, uploads into it exactly the byte
size of the vertex data (`sizeof(float)` times 20 floats, i.e. 80 bytes), and
hands the handle back. -/
theorem initialize_vertex_buffer_unbinds (s : GLState) :
    (Main.initialize_vertex_buffer s).2.arrayBuffer = 0 ∧
    (Main.initialize_vertex_buffer s).1 = s.nextBuffer + 1 ∧
    lookupD (s.nextBuffer + 1) (Main.initialize_vertex_buffer s).2.bufferStore (0, []) =
      (sizeofFloat * vertexPositions.length, vertexPositions) ∧
    sizeofFloat * vertexPositions.length = 80 := by
  refine ⟨?_, ?_, ?_, ?_⟩ <;>
    simp [Main.initialize_vertex_buffer, glGenBuffer, glBindBuffer, glBufferData,
      GL_ARRAY_BUFFER, vertexPositions, sizeofFloat]

/-- C6: every `render_scene` call of the fan variant issues exactly one draw
call — primitive mode GL_TRIANGLE_FAN, first index 0, vertex count 5 — and
the buffer it binds through attribute 0 (4 float components per vertex) holds
exactly the five-vertex fan data, 4 · 5 = 20 floats. -/
theorem render_scene_one_draw (shaderProgram : Nat) (s : GLState) :
    (Main.render_scene shaderProgram s).draws =
      s.draws ++ [⟨GL_TRIANGLE_FAN, 0, 5⟩] ∧
    lookupD 0 (Main.render_scene shaderProgram s).attribPtrs ⟨0, 0, 0, false, 0, 0⟩ =
      ⟨s.nextBuffer + 1, 4, GL_FLOAT, false, 0, 0⟩ ∧
    lookupD (s.nextBuffer + 1) (Main.render_scene shaderProgram s).bufferStore (0, []) =
      (sizeofFloat * vertexPositions.length, vertexPositions) ∧
    vertexPositions.length = 4 * 5 := by
  refine ⟨?_, ?_, ?_, ?_⟩ <;>
    simp [Main.render_scene, Main.initialize_vertex_buffer, glClearColor, glClear,
      glUseProgram, glGenBuffer, glBindBuffer, glBufferData, glEnableVertexAttribArray,
      glVertexAttribPointer, glDrawArrays, glDisableVertexAttribArray,
      GL_ARRAY_BUFFER, vertexPositions, sizeofFloat]

/-- C7: in the two-attribute variant, the bind step points shader input
location 0 at the buffer with 4 float components at byte offset 0 and
location 1 with 4 float components at byte offset `sizeof(GLfloat) * 4 * 3`,
which is exactly the byte size of the position block — 3 vertices of 4 floats
of 4 bytes each, i.e. 48 bytes. -/
theorem multiinput_bind_offsets (shaderProgram : Nat) (s : GLState) :
    lookupD 0 (MultiInput.render_scene shaderProgram s).attribPtrs ⟨0, 0, 0, false, 0, 0⟩ =
      ⟨s.nextBuffer + 1, 4, GL_FLOAT, false, 0, 0⟩ ∧
    lookupD 1 (MultiInput.render_scene shaderProgram s).attribPtrs ⟨0, 0, 0, false, 0, 0⟩ =
      ⟨s.nextBuffer + 1, 4, GL_FLOAT, false, 0, sizeofFloat * 4 * 3⟩ ∧
    sizeofFloat * 4 * 3 = 48 ∧
    sizeofFloat * (vertexDataMulti.take (4 * 3)).length = 48 := by
  refine ⟨?_, ?_, ?_, ?_⟩ <;>
    simp [MultiInput.render_scene, MultiInput.initialize_vertex_buffer, glClearColor,
      glClear, glUseProgram, glGenBuffer, glBindBuffer, glBufferData,
      glEnableVertexAttribArray, glVertexAttribPointer, glDrawArrays,
      glDisableVertexAttribArray, GL_ARRAY_BUFFER, vertexDataMulti, sizeofFloat, lookupD]

/-! ## Claims about the compile stage -/

/-- C5: for every stage kind among vertex, fragment, geometry and every
source text, when the driver reports compile failure `create_shader` still
returns the (nonzero) shader handle, and the single diagnostic line it prints
names the stage kind alongside the driver log. -/
theorem create_shader_failure_reports_stage (d : Driver) (shaderType : Nat)
    (src : String) (s : GLState)
    (hty : shaderType = GL_VERTEX_SHADER ∨ shaderType = GL_FRAGMENT_SHADER ∨
      shaderType = GL_GEOMETRY_SHADER)
    (hfail : d.compileOk shaderType src = false) :
    (create_shader d shaderType src s).1 ≠ 0 ∧
    ∃ stageName, shaderTypeName shaderType = some stageName ∧
      (create_shader d shaderType src s).2.stderrLog =
        s.stderrLog ++ ["Compile failure in " ++ stageName ++ " shader:\n"
          ++ d.compileLog shaderType src ++ "%s"] := by
  have hmain : ∀ nm, shaderTypeName shaderType = some nm →
      (create_shader d shaderType src s).2.stderrLog =
        s.stderrLog ++ ["Compile failure in " ++ nm ++ " shader:\n"
          ++ d.compileLog shaderType src ++ "%s"] := by
    intro nm hnm
    simp [create_shader, glCreateShader, glShaderSource, glCompileShader, hnm, hfail]
  refine ⟨by simp [create_shader, glCreateShader], ?_⟩
  obtain h | h | h := hty <;> subst h
  · exact ⟨"vertex", by simp [shaderTypeName], hmain "vertex" (by simp [shaderTypeName])⟩
  · refine ⟨"fragment", by simp [shaderTypeName, GL_FRAGMENT_SHADER, GL_VERTEX_SHADER,
      GL_GEOMETRY_SHADER], hmain "fragment" (by simp [shaderTypeName, GL_FRAGMENT_SHADER,
      GL_VERTEX_SHADER, GL_GEOMETRY_SHADER])⟩
  · refine ⟨"geometry", by simp [shaderTypeName, GL_FRAGMENT_SHADER, GL_VERTEX_SHADER,
      GL_GEOMETRY_SHADER], hmain "geometry" (by simp [shaderTypeName, GL_FRAGMENT_SHADER,
      GL_VERTEX_SHADER, GL_GEOMETRY_SHADER])⟩

/-- Witness for C5 at a concrete failing driver, stage and source. -/
theorem create_shader_failure_reports_stage_witness :
    (create_shader dFail GL_VERTEX_SHADER "bad source" glInit).1 ≠ 0 ∧
    ∃ stageName, shaderTypeName GL_VERTEX_SHADER = some stageName ∧
      (create_shader dFail GL_VERTEX_SHADER "bad source" glInit).2.stderrLog =
        glInit.stderrLog ++ ["Compile failure in " ++ stageName ++ " shader:\n"
          ++ dFail.compileLog GL_VERTEX_SHADER "bad source" ++ "%s"] :=
  create_shader_failure_reports_stage dFail GL_VERTEX_SHADER "bad source" glInit
    (Or.inl rfl) rfl

/-! ## Claims about per-frame state restoration -/

/-- C1 (amended): after `render_scene` returns, every vertex attribute index
the call enabled in the fan variant is disabled again and no program remains
active — but the array-buffer binding is NOT restored: it remains set to the
frame's fresh (nonzero) buffer handle.  In the two-attribute variant the
call moreover leaves attribute index 1 enabled (it disables only index 0). -/
theorem render_scene_restores_attribs_and_program (shaderProgram : Nat) (s : GLState) :
    0 ∉ (Main.render_scene shaderProgram s).enabledAttribs ∧
    (Main.render_scene shaderProgram s).currentProgram = 0 ∧
    (Main.render_scene shaderProgram s).arrayBuffer = s.nextBuffer + 1 ∧
    s.nextBuffer + 1 ≠ 0 ∧
    (MultiInput.render_scene shaderProgram s).currentProgram = 0 ∧
    0 ∉ (MultiInput.render_scene shaderProgram s).enabledAttribs ∧
    1 ∈ (MultiInput.render_scene shaderProgram s).enabledAttribs := by
  refine ⟨?_, ?_, ?_, ?_, ?_, ?_, ?_⟩ <;>
    simp [Main.render_scene, MultiInput.render_scene, Main.initialize_vertex_buffer,
      MultiInput.initialize_vertex_buffer, glClearColor, glClear, glUseProgram,
      glGenBuffer, glBindBuffer, glBufferData, glEnableVertexAttribArray,
      glVertexAttribPointer, glDrawArrays, glDisableVertexAttribArray, GL_ARRAY_BUFFER]
  · split <;> rename_i h1
    · split <;> simp_all
    · split <;> simp_all

/-- Counterexample to C1 as stated: from the pristine context, after one
`render_scene` call of the fan variant the array-buffer binding is still the
frame's buffer handle 1, not "none" (0); and in the two-attribute variant
attribute index 1 is still enabled. -/
theorem render_scene_state_leak_cex :
    ((Main.render_scene 7 glInit).arrayBuffer = 1 ∧ (1 : Nat) ≠ 0) ∧
    1 ∈ (MultiInput.render_scene 7 glInit).enabledAttribs := by
  refine ⟨⟨?_, by decide⟩, ?_⟩ <;> decide

/-! ## Claims about the fatality of compile / link failure -/

/-- C2 (amended): a compile or link failure is reported on the diagnostic
stream but is NOT fatal to startup.  For every driver outcome, `main` (with
GLFW and the window fine) proceeds past initialization into the render loop
with whatever `initialize_main_shaders` returned; in particular, when the
vertex-stage compile fails, the failing `create_shader` call prints its
diagnostic and the startup still does not abort. -/
theorem shader_failure_not_fatal (d : Driver) (s : GLState)
    (hfail : d.compileOk GL_VERTEX_SHADER VertexShaderString = false) :
    main_startup d true true s = some (initialize_main_shaders d s) ∧
    (create_shader d GL_VERTEX_SHADER VertexShaderString s).2.stderrLog =
      s.stderrLog ++ ["Compile failure in vertex shader:\n"
        ++ d.compileLog GL_VERTEX_SHADER VertexShaderString ++ "%s"] := by
  constructor
  · simp [main_startup]
  · simp [create_shader, glCreateShader, glShaderSource, glCompileShader,
      shaderTypeName, hfail]

/-- Witness for C2's amended theorem at the all-failing driver. -/
theorem shader_failure_not_fatal_witness :
    main_startup dFail true true glInit = some (initialize_main_shaders dFail glInit) ∧
    (create_shader dFail GL_VERTEX_SHADER VertexShaderString glInit).2.stderrLog =
      glInit.stderrLog ++ ["Compile failure in vertex shader:\n"
        ++ dFail.compileLog GL_VERTEX_SHADER VertexShaderString ++ "%s"] :=
  shader_failure_not_fatal dFail glInit rfl

/-- Counterexample to C2 as stated: on a driver where every compile and the
link fail, startup still returns a program to render with (`isSome`) — the
caller never aborts — even though the compile-failure and link-failure
diagnostics were printed. -/
theorem startup_proceeds_after_failure_cex :
    (main_startup dFail true true glInit).isSome = true ∧
    (initialize_main_shaders dFail glInit).2.stderrLog =
      ["Compile failure in vertex shader:\n%s",
       "Compile failure in fragment shader:\n%s",
       "Linker failure: "] := by
  constructor
  · rfl
  · decide

/-! ## Claims about buffer-handle lifetime -/

/-- Per-frame effect of the fan variants on the buffer pool: each call
appends exactly one fresh handle and bumps the handle counter by one; the
same holds for the part_000 variant. -/
theorem render_scene_buffer_effect (shaderProgram : Nat) (s : GLState) :
    (Main.render_scene shaderProgram s).liveBuffers = s.liveBuffers ++ [s.nextBuffer + 1] ∧
    (Main.render_scene shaderProgram s).nextBuffer = s.nextBuffer + 1 ∧
    (FanRef.render_scene shaderProgram s).liveBuffers = s.liveBuffers ++ [s.nextBuffer + 1] ∧
    (FanRef.render_scene shaderProgram s).nextBuffer = s.nextBuffer + 1 := by
  refine ⟨?_, ?_, ?_, ?_⟩ <;>
    simp [Main.render_scene, FanRef.render_scene, Main.initialize_vertex_buffer,
      FanRef.initialize_vertex_buffer, glClearColor, glClear, glUseProgram,
      glGenBuffer, glBindBuffer, glBufferData, glEnableVertexAttribArray,
      glVertexAttribPointer, glDrawArrays, glDisableVertexAttribArray, GL_ARRAY_BUFFER]

/-- C9: every `render_scene` call (src/main.cc and part_000 alike) generates
exactly one new buffer handle and nothing ever deletes one, so across `n`
frames of the main loop the pool of live handles is exactly the old pool
followed by the `n` fresh handles — it grows by exactly `n` and every
previously live handle is still live. -/
theorem frames_leak_buffers (n shaderProgram : Nat) (s : GLState) :
    (Main.render_scene shaderProgram s).liveBuffers = s.liveBuffers ++ [s.nextBuffer + 1] ∧
    (FanRef.render_scene shaderProgram s).liveBuffers = s.liveBuffers ++ [s.nextBuffer + 1] ∧
    (frames n shaderProgram s).liveBuffers =
      s.liveBuffers ++ (List.range n).map (fun i => s.nextBuffer + 1 + i) ∧
    (frames n shaderProgram s).liveBuffers.length = s.liveBuffers.length + n := by
  refine ⟨(render_scene_buffer_effect shaderProgram s).1,
    (render_scene_buffer_effect shaderProgram s).2.2.1, ?_, ?_⟩
  · induction n generalizing s with
    | zero => simp [frames]
    | succ k ih =>
      show (frames k shaderProgram (Main.render_scene shaderProgram s)).liveBuffers = _
      rw [ih]
      obtain ⟨h1, h2, _, _⟩ := render_scene_buffer_effect shaderProgram s
      rw [h1, h2]
      rw [List.range_succ_eq_map]
      have hfun : (fun i => s.nextBuffer + 1 + 1 + i) =
          (fun i => s.nextBuffer + 1 + Nat.succ i) := funext fun i => by omega
      simp [List.map_map, List.append_assoc, Function.comp, hfun]
  · induction n generalizing s with
    | zero => simp [frames]
    | succ k ih =>
      show (frames k shaderProgram (Main.render_scene shaderProgram s)).liveBuffers.length = _
      rw [ih]
      obtain ⟨h1, _, _, _⟩ := render_scene_buffer_effect shaderProgram s
      rw [h1]
      simp
      omega

/-! ## Claims about linking -/

/-- C3: for every list of shader objects (the claim speaks of non-empty
lists), `create_shader_program` creates the fresh program
`s.nextProgram + 1`, attaches every supplied shader and requests the link on
exactly that collection, and — on the success and the failure branch alike,
since the driver outcome `d` is universally quantified — detaches every
supplied shader again: afterwards no supplied shader is attached to the
program and the attachment table is exactly what it was before the call. -/
theorem create_shader_program_detaches_all (d : Driver) (shaderList : List Nat)
    (s : GLState)
    (hne : shaderList ≠ [])
    (hclean : ∀ sh, (s.nextProgram + 1, sh) ∉ s.attachments) :
    (create_shader_program d shaderList s).1 = s.nextProgram + 1 ∧
    lookupD (s.nextProgram + 1)
        (create_shader_program d shaderList s).2.linkStatus false
      = d.linkOk shaderList ∧
    (∀ sh ∈ shaderList,
      (s.nextProgram + 1, sh) ∉ (create_shader_program d shaderList s).2.attachments) ∧
    (create_shader_program d shaderList s).2.attachments = s.attachments := by
  have hmem : ∀ a ∈ s.attachments, a.1 ≠ s.nextProgram + 1 := by
    intro a ha h
    apply hclean a.2
    rw [show a = (s.nextProgram + 1, a.2) by rw [Prod.ext_iff]; exact ⟨h, rfl⟩] at ha
    exact ha
  have hcleanP : s.attachments.filter (fun a => decide (a.1 = s.nextProgram + 1)) = [] := by
    rw [List.filter_eq_nil]
    intro a ha
    simp only [decide_eq_true_eq]
    exact hmem a ha
  have hmapP : (shaderList.map (fun sh => (s.nextProgram + 1, sh))).filter
      (fun a => decide (a.1 = s.nextProgram + 1)) =
      shaderList.map (fun sh => (s.nextProgram + 1, sh)) := by
    rw [List.filter_eq_self]
    intro a ha
    obtain ⟨sh, hsh, rfl⟩ := List.mem_map.mp ha
    simp
  have hkeep : s.attachments.filter
      (fun a => decide ¬(a.1 = s.nextProgram + 1 ∧ a.2 ∈ shaderList)) = s.attachments := by
    rw [List.filter_eq_self]
    intro a ha
    simp only [decide_eq_true_eq, not_and]
    intro h
    exact absurd h (hmem a ha)
  have hdrop : (shaderList.map (fun sh => (s.nextProgram + 1, sh))).filter
      (fun a => decide ¬(a.1 = s.nextProgram + 1 ∧ a.2 ∈ shaderList)) = [] := by
    rw [List.filter_eq_nil]
    intro a ha
    obtain ⟨sh, hsh, rfl⟩ := List.mem_map.mp ha
    simp [hsh]
  have hstate : (create_shader_program d shaderList s).2.attachments = s.attachments := by
    simp only [create_shader_program, glCreateProgram, attach_fold_eq, glLinkProgram,
      detach_fold_eq, List.filter_append]
    rw [hkeep, hdrop, List.append_nil]
  refine ⟨rfl, ?_, ?_, hstate⟩
  · simp only [create_shader_program, glCreateProgram, attach_fold_eq, glLinkProgram,
      detach_fold_eq, List.filter_append]
    rw [hcleanP, hmapP, List.nil_append, List.map_map]
    simp
  · intro sh hsh hmem'
    rw [hstate] at hmem'
    exact hclean sh hmem'

/-- Witness for C3: a concrete two-shader list on the failing driver from the
pristine context. -/
theorem create_shader_program_detaches_all_witness :
    (create_shader_program dFail [5, 7] glInit).1 = glInit.nextProgram + 1 ∧
    lookupD (glInit.nextProgram + 1)
        (create_shader_program dFail [5, 7] glInit).2.linkStatus false
      = dFail.linkOk [5, 7] ∧
    (∀ sh ∈ [5, 7],
      (glInit.nextProgram + 1, sh) ∉ (create_shader_program dFail [5, 7] glInit).2.attachments) ∧
    (create_shader_program dFail [5, 7] glInit).2.attachments = glInit.attachments :=
  create_shader_program_detaches_all dFail [5, 7] glInit (by decide)
    (fun sh h => by simp [glInit] at h)

/-! ## Claims about the composite pipeline builder -/

/-- C4: `initialize_main_shaders` compiles the vertex and the fragment source
into the shader objects `s.nextShader + 1` and `s.nextShader + 2`, links the
full pair into the program `s.nextProgram + 1`, and afterwards both shader
objects have been destroyed (they are no longer live) — on every driver
outcome, i.e. on the success and on the failure path of compilation and of
linking alike. -/
theorem initialize_main_shaders_releases (d : Driver) (s : GLState)
    (hclean : ∀ sh, (s.nextProgram + 1, sh) ∉ s.attachments) :
    (initialize_main_shaders d s).1 = s.nextProgram + 1 ∧
    lookupD (s.nextShader + 1) (initialize_main_shaders d s).2.compileStatus false
      = d.compileOk GL_VERTEX_SHADER VertexShaderString ∧
    lookupD (s.nextShader + 1 + 1) (initialize_main_shaders d s).2.compileStatus false
      = d.compileOk GL_FRAGMENT_SHADER FragmentShaderString ∧
    lookupD (s.nextProgram + 1) (initialize_main_shaders d s).2.linkStatus false
      = d.linkOk [s.nextShader + 1, s.nextShader + 1 + 1] ∧
    (s.nextShader + 1) ∉ (initialize_main_shaders d s).2.liveShaders ∧
    (s.nextShader + 1 + 1) ∉ (initialize_main_shaders d s).2.liveShaders := by
  have hne21 : s.nextShader + 1 + 1 ≠ s.nextShader + 1 := by omega
  have hcleanP : s.attachments.filter (fun a => decide (a.1 = s.nextProgram + 1)) = [] := by
    rw [List.filter_eq_nil]
    intro a ha
    simp only [decide_eq_true_eq]
    intro h
    apply hclean a.2
    rw [show a = (s.nextProgram + 1, a.2) by rw [Prod.ext_iff]; exact ⟨h, rfl⟩] at ha
    exact ha
  refine ⟨rfl, ?_, ?_, ?_, ?_, ?_⟩ <;>
    simp [initialize_main_shaders, create_shader, glCreateShader, glShaderSource,
      glCompileShader, create_shader_program, glCreateProgram, glAttachShader,
      glLinkProgram, glDetachShader, glDeleteShader, List.foldl_cons, List.foldl_nil,
      List.filter_append, hcleanP, lookupD_cons_ne _ _ _ hne21, hne21]

/-- Witness for C4 at the all-failing driver from the pristine context. -/
theorem initialize_main_shaders_releases_witness :
    (initialize_main_shaders dFail glInit).1 = glInit.nextProgram + 1 ∧
    lookupD (glInit.nextShader + 1) (initialize_main_shaders dFail glInit).2.compileStatus false
      = dFail.compileOk GL_VERTEX_SHADER VertexShaderString ∧
    lookupD (glInit.nextShader + 1 + 1) (initialize_main_shaders dFail glInit).2.compileStatus false
      = dFail.compileOk GL_FRAGMENT_SHADER FragmentShaderString ∧
    lookupD (glInit.nextProgram + 1) (initialize_main_shaders dFail glInit).2.linkStatus false
      = dFail.linkOk [glInit.nextShader + 1, glInit.nextShader + 1 + 1] ∧
    (glInit.nextShader + 1) ∉ (initialize_main_shaders dFail glInit).2.liveShaders ∧
    (glInit.nextShader + 1 + 1) ∉ (initialize_main_shaders dFail glInit).2.liveShaders :=
  initialize_main_shaders_releases dFail glInit (fun sh h => by simp [glInit] at h)
